import Mathlib

/-!
Verification of the measurement/verification harness of
Karabiner-Elements-user-command-receiver: the two Python tools
tools/bridge_latency_bench.py and tools/bridge_smoke_test.py.

Embedding conventions:
- Python floats (latency samples, percentile levels, timestamps, timeouts)
  are modelled as exact rationals ℚ.
- Python byte strings / strings are modelled as Lean String.
- Fallible code (raised exceptions) is modelled with Except.
- Effects against the outside world (datagram round trips, the clock,
  filesystem existence checks, the spawned subject process) are modelled by
  explicit oracle parameters, so each tool body becomes a pure function of
  its environment.
-/

/-- Python's builtin round (one argument): round half to even
(banker's rounding), as used by bridge_latency_bench.py line 60
(idx = int(round((p / 100.0) * (len(values) - 1)))). -/
def pyRound (q : ℚ) : ℤ :=
  if q - (⌊q⌋ : ℚ) < 1/2 then ⌊q⌋
  else if 1/2 < q - (⌊q⌋ : ℚ) then ⌊q⌋ + 1
  else if ⌊q⌋ % 2 = 0 then ⌊q⌋ else ⌊q⌋ + 1

theorem pyRound_ge_floor (q : ℚ) : ⌊q⌋ ≤ pyRound q := by
  unfold pyRound
  split_ifs <;> omega

theorem pyRound_le_floor_add_one (q : ℚ) : pyRound q ≤ ⌊q⌋ + 1 := by
  unfold pyRound
  split_ifs <;> omega

theorem pyRound_mono {a b : ℚ} (h : a ≤ b) : pyRound a ≤ pyRound b := by
  have hf : ⌊a⌋ ≤ ⌊b⌋ := Int.floor_le_floor h
  rcases lt_or_eq_of_le hf with hlt | heq
  · calc pyRound a ≤ ⌊a⌋ + 1 := pyRound_le_floor_add_one a
      _ ≤ ⌊b⌋ := by omega
      _ ≤ pyRound b := pyRound_ge_floor b
  · have hfrac : a - (⌊a⌋ : ℚ) ≤ b - (⌊b⌋ : ℚ) := by
      rw [heq]
      linarith
    unfold pyRound
    simp only [heq] at hfrac ⊢
    split_ifs <;> first | omega | linarith

theorem pyRound_zero : pyRound 0 = 0 := by
  unfold pyRound
  norm_num

/-- percentile from tools/bridge_latency_bench.py lines 55-62:
empty input returns 0.0; a singleton returns its only element; otherwise
the value at index int(round((p/100)*(n-1))) clamped into [0, n-1]. -/
def percentile (values : List ℚ) (p : ℚ) : ℚ :=
  match values with
  | [] => 0
  | [v] => v
  | _ =>
    let idx : ℤ := pyRound (p / 100 * ((values.length : ℚ) - 1))
    let idx : ℤ := max 0 (min idx ((values.length : ℤ) - 1))
    values.getD idx.toNat 0

/-- The sorted-position index the spec prescribes for percentile p over n
samples: round(p/100 × (n−1)) clamped to [0, n−1] (nearest-rank, no
interpolation), with round being Python's round. -/
def clampedIndex (p : ℚ) (n : ℕ) : ℕ :=
  (max 0 (min (pyRound (p / 100 * ((n : ℚ) - 1))) ((n : ℤ) - 1))).toNat

theorem clampedIndex_lt {n : ℕ} (hn : 1 ≤ n) (p : ℚ) : clampedIndex p n < n := by
  unfold clampedIndex
  omega

theorem clampedIndex_mono {p q : ℚ} (n : ℕ) (hn : 1 ≤ n) (hpq : p ≤ q) :
    clampedIndex p n ≤ clampedIndex q n := by
  unfold clampedIndex
  have hn1 : (0 : ℚ) ≤ (n : ℚ) - 1 := by
    have : (1 : ℚ) ≤ (n : ℚ) := by exact_mod_cast hn
    linarith
  have harg : p / 100 * ((n : ℚ) - 1) ≤ q / 100 * ((n : ℚ) - 1) := by
    have hdiv : p / 100 ≤ q / 100 := by
      apply div_le_div_of_nonneg_right hpq <;> norm_num
    exact mul_le_mul_of_nonneg_right hdiv hn1
  have hr := pyRound_mono harg
  omega

/-- percentile on a non-empty list selects the element at the clamped
nearest-rank index (this also covers the singleton fast path). -/
theorem percentile_eq_getD {l : List ℚ} (h : l ≠ []) (p : ℚ) :
    percentile l p = l.getD (clampedIndex p l.length) 0 := by
  match l with
  | [] => exact absurd rfl h
  | [v] =>
    have hidx : clampedIndex p 1 = 0 := by
      unfold clampedIndex
      simp [pyRound_zero]
    simp [percentile, hidx]
  | a :: b :: rest =>
    rfl

/-- SummaryRow from tools/bridge_latency_bench.py summarize (lines 65-77):
the dict with keys name, count, min_us, p50_us, p90_us, p95_us, p99_us,
max_us, mean_us. -/
structure SummaryRow where
  name : String
  count : ℕ
  min_us : ℚ
  p50_us : ℚ
  p90_us : ℚ
  p95_us : ℚ
  p99_us : ℚ
  max_us : ℚ
  mean_us : ℚ
deriving Repr, DecidableEq

/-- summarize from tools/bridge_latency_bench.py lines 65-77. Python's
sorted() is an ascending sort; fmean is the arithmetic mean, guarded by
the same emptiness checks as in the source. -/
def summarize (nm : String) (values_us : List ℚ) : SummaryRow :=
  let sorted_values := List.insertionSort (· ≤ ·) values_us
  { name := nm
    count := sorted_values.length
    min_us := sorted_values.headD 0
    p50_us := percentile sorted_values 50
    p90_us := percentile sorted_values 90
    p95_us := percentile sorted_values 95
    p99_us := percentile sorted_values 99
    max_us := sorted_values.getLastD 0
    mean_us := if sorted_values.isEmpty then 0 else sorted_values.sum / sorted_values.length }

theorem headD_eq_get (l : List ℚ) (h : l ≠ []) :
    l.headD 0 = l.get ⟨0, List.length_pos.mpr h⟩ := by
  cases l with
  | nil => exact absurd rfl h
  | cons a tl => rfl

theorem getLastD_eq_get (l : List ℚ) (h : l ≠ []) :
    l.getLastD 0 = l.get ⟨l.length - 1, by have := List.length_pos.mpr h; omega⟩ := by
  rw [show l.getLastD 0 = l.getLast h from by
        simp [List.getLastD_eq_getLast?, List.getLast?_eq_getLast l h]]
  exact List.getLast_eq_get l h

theorem percentile_mono_on_sorted {s : List ℚ} (hs : s ≠ [])
    (hsort : s.Sorted (· ≤ ·)) {p q : ℚ} (hpq : p ≤ q) :
    percentile s p ≤ percentile s q := by
  have hn : 1 ≤ s.length := List.length_pos.mpr hs
  rw [percentile_eq_getD hs p, percentile_eq_getD hs q]
  have hip := clampedIndex_lt hn p
  have hiq := clampedIndex_lt hn q
  rw [List.getD_eq_getElem s 0 hip, List.getD_eq_getElem s 0 hiq,
      ← List.get_eq_getElem s ⟨clampedIndex p s.length, hip⟩,
      ← List.get_eq_getElem s ⟨clampedIndex q s.length, hiq⟩]
  exact hsort.rel_get_of_le (Fin.mk_le_mk.mpr (clampedIndex_mono s.length hn hpq))

/-- C2: for every non-empty collection of latency samples, summarize returns a
row whose count equals the input length and whose percentile fields form the
chain min_us ≤ p50_us ≤ p90_us ≤ p95_us ≤ p99_us ≤ max_us. -/
theorem summarize_count_and_percentile_chain (nm : String) (l : List ℚ) (h : l ≠ []) :
    (summarize nm l).count = l.length ∧
    (summarize nm l).min_us ≤ (summarize nm l).p50_us ∧
    (summarize nm l).p50_us ≤ (summarize nm l).p90_us ∧
    (summarize nm l).p90_us ≤ (summarize nm l).p95_us ∧
    (summarize nm l).p95_us ≤ (summarize nm l).p99_us ∧
    (summarize nm l).p99_us ≤ (summarize nm l).max_us := by
  have hperm := List.perm_insertionSort (· ≤ ·) l
  have hlen : (List.insertionSort (· ≤ ·) l).length = l.length := hperm.length_eq
  have hs : List.insertionSort (· ≤ ·) l ≠ [] := by
    intro he
    apply h
    apply List.length_eq_zero.mp
    rw [← hlen, he]
    rfl
  have hpos : 0 < (List.insertionSort (· ≤ ·) l).length := List.length_pos.mpr hs
  have hsort : (List.insertionSort (· ≤ ·) l).Sorted (· ≤ ·) :=
    List.sorted_insertionSort (· ≤ ·) l
  refine ⟨hlen, ?_, ?_, ?_, ?_, ?_⟩
  · show (List.insertionSort (· ≤ ·) l).headD 0 ≤ percentile (List.insertionSort (· ≤ ·) l) 50
    rw [headD_eq_get _ hs, percentile_eq_getD hs 50]
    have hip := clampedIndex_lt hpos (50 : ℚ)
    rw [List.getD_eq_getElem _ 0 hip, ← List.get_eq_getElem _ ⟨_, hip⟩]
    exact hsort.rel_get_of_le (Fin.mk_le_mk.mpr (Nat.zero_le _))
  · exact percentile_mono_on_sorted hs hsort (by norm_num)
  · exact percentile_mono_on_sorted hs hsort (by norm_num)
  · exact percentile_mono_on_sorted hs hsort (by norm_num)
  · show percentile (List.insertionSort (· ≤ ·) l) 99 ≤ (List.insertionSort (· ≤ ·) l).getLastD 0
    rw [getLastD_eq_get _ hs, percentile_eq_getD hs 99]
    have hip := clampedIndex_lt hpos (99 : ℚ)
    rw [List.getD_eq_getElem _ 0 hip, ← List.get_eq_getElem _ ⟨_, hip⟩]
    exact hsort.rel_get_of_le (Fin.mk_le_mk.mpr (by omega))

/-- Witness for C2 at the concrete sample list [3, 1, 2]. -/
theorem summarize_count_and_percentile_chain_witness :
    ([3, 1, 2] : List ℚ) ≠ [] ∧
    ((summarize "direct_dgram" [3, 1, 2]).count = ([3, 1, 2] : List ℚ).length ∧
     (summarize "direct_dgram" [3, 1, 2]).min_us ≤ (summarize "direct_dgram" [3, 1, 2]).p50_us ∧
     (summarize "direct_dgram" [3, 1, 2]).p50_us ≤ (summarize "direct_dgram" [3, 1, 2]).p90_us ∧
     (summarize "direct_dgram" [3, 1, 2]).p90_us ≤ (summarize "direct_dgram" [3, 1, 2]).p95_us ∧
     (summarize "direct_dgram" [3, 1, 2]).p95_us ≤ (summarize "direct_dgram" [3, 1, 2]).p99_us ∧
     (summarize "direct_dgram" [3, 1, 2]).p99_us ≤ (summarize "direct_dgram" [3, 1, 2]).max_us) :=
  ⟨by decide, summarize_count_and_percentile_chain "direct_dgram" [3, 1, 2] (by decide)⟩

/-- C3: on the ascending-sorted samples, percentile p selects exactly the
element at index round(p/100 × (n−1)) (Python round) clamped to [0, n−1],
with no interpolation, and that index is in range. -/
theorem percentile_nearest_rank (l : List ℚ) (p : ℚ) (h : l ≠ []) :
    percentile (List.insertionSort (· ≤ ·) l) p
      = (List.insertionSort (· ≤ ·) l).getD
          ((max 0 (min (pyRound (p / 100 * ((l.length : ℚ) - 1))) ((l.length : ℤ) - 1))).toNat) 0
    ∧ (max 0 (min (pyRound (p / 100 * ((l.length : ℚ) - 1))) ((l.length : ℤ) - 1))).toNat
        < l.length := by
  have hperm := List.perm_insertionSort (· ≤ ·) l
  have hlen : (List.insertionSort (· ≤ ·) l).length = l.length := hperm.length_eq
  have hs : List.insertionSort (· ≤ ·) l ≠ [] := by
    intro he
    apply h
    apply List.length_eq_zero.mp
    rw [← hlen, he]
    rfl
  have hpos : 0 < (List.insertionSort (· ≤ ·) l).length := List.length_pos.mpr hs
  constructor
  · rw [percentile_eq_getD hs p]
    unfold clampedIndex
    rw [hlen]
  · have := clampedIndex_lt hpos p
    unfold clampedIndex at this
    rw [hlen] at this
    exact this

/-- Witness for C3 at the concrete sample list [3, 1, 2] and level p = 95. -/
theorem percentile_nearest_rank_witness :
    ([3, 1, 2] : List ℚ) ≠ [] ∧
    (percentile (List.insertionSort (· ≤ ·) [3, 1, 2]) 95
      = (List.insertionSort (· ≤ ·) ([3, 1, 2] : List ℚ)).getD
          ((max 0 (min (pyRound ((95 : ℚ) / 100 * ((([3, 1, 2] : List ℚ).length : ℚ) - 1)))
            ((([3, 1, 2] : List ℚ).length : ℤ) - 1))).toNat) 0
    ∧ ((max 0 (min (pyRound ((95 : ℚ) / 100 * ((([3, 1, 2] : List ℚ).length : ℚ) - 1)))
            ((([3, 1, 2] : List ℚ).length : ℤ) - 1))).toNat
        < ([3, 1, 2] : List ℚ).length)) :=
  ⟨by decide, percentile_nearest_rank [3, 1, 2] 95 (by decide)⟩

/-- C4: for the empty sample collection, summarize returns count 0 and every
statistic (min, p50, p90, p95, p99, max, mean) equal to zero. -/
theorem summarize_empty_all_zero (nm : String) :
    summarize nm [] = ⟨nm, 0, 0, 0, 0, 0, 0, 0, 0⟩ :=
  rfl

/-- Structured payload shapes sent by the harness tools, from the JSON
objects in tools/bridge_smoke_test.py lines 118-123 and the benchmark
payload at tools/bridge_latency_bench.py line 120. -/
inductive Payload where
  | runCmd (v : ℕ) (nm : String)
  | openAppToggle (v : ℕ) (app : String)
  | command (s : String)
  | line (s : String)
deriving Repr, DecidableEq

/-- The fixed smoke corpus, named cases in tools/bridge_smoke_test.py main
(lines 118-123): each entry pairs one structured payload with the exact
expected translated output line. -/
def smokeCases : List (Payload × String) :=
  [ (.runCmd 1 "open Safari new tab", "RUN open Safari new tab\n"),
    (.openAppToggle 1 "Safari", "OPEN_APP_TOGGLE Safari\n"),
    (.command "RUN New Linear task", "RUN New Linear task\n"),
    (.line "PING", "PING\n") ]

/-- Verification loop of tools/bridge_smoke_test.py main (lines 125-134):
for each (payload, expected) pair, send the payload and receive one line
(modelled by the oracle respond), and stop at the first case whose received
line is not byte-identical to the expected line, reporting its 1-based index
with the expected and actual bytes. -/
def verifyCases (respond : Payload → String) :
    List (Payload × String) → ℕ → Except (ℕ × String × String) Unit
  | [], _ => .ok ()
  | c :: rest, i =>
    if respond c.1 = c.2 then verifyCases respond rest (i + 1)
    else .error (i, c.2, respond c.1)

/-- The smoke verifier run over the full fixed corpus, with enumerate
starting at 1 as in the source. -/
def runSmokeCases (respond : Payload → String) : Except (ℕ × String × String) Unit :=
  verifyCases respond smokeCases 1

/-- Counterexample for C1: the third smoke case's payload is not the
structured payload with command field "New Linear task" claimed by the spec;
the source pairs the expected line "RUN New Linear task\n" with the payload
whose command field is "RUN New Linear task". -/
theorem smoke_third_case_payload_ne_claimed :
    smokeCases.get? 2 ≠ some (Payload.command "New Linear task", "RUN New Linear task\n") := by
  decide

/-- C1 (amended): the third smoke case is the payload with command field
"RUN New Linear task" paired with expected line "RUN New Linear task\n";
there are four literal cases, and the verifier succeeds exactly when every
case's received line is byte-identical to its expected line. -/
theorem smoke_corpus_third_case_and_exactness :
    smokeCases.get? 2 = some (Payload.command "RUN New Linear task", "RUN New Linear task\n")
    ∧ smokeCases.length = 4
    ∧ ∀ respond : Payload → String,
        (runSmokeCases respond = .ok () ↔ ∀ c ∈ smokeCases, respond c.1 = c.2) := by
  refine ⟨rfl, rfl, ?_⟩
  intro respond
  simp only [runSmokeCases, verifyCases, smokeCases]
  split_ifs <;> simp_all

/-- Modelled from the spec: the bridge's structured input protocol
(section 6 of the spec) — run payloads translate to "RUN <name>\n",
open_app_toggle payloads to "OPEN_APP_TOGGLE <app>\n", command payloads to
"<command>\n" and line payloads to "<string>\n". The bridge binary itself is
an external collaborator not part of this repository's sources; this
function exists only to exercise the verifier on a conforming responder. -/
def specTranslation : Payload → String
  | .runCmd _ nm => "RUN " ++ nm ++ "\n"
  | .openAppToggle _ app => "OPEN_APP_TOGGLE " ++ app ++ "\n"
  | .command s => s ++ "\n"
  | .line s => s ++ "\n"

/-- Witness for C1: a responder implementing the spec translation makes the
smoke verifier succeed. -/
theorem smoke_corpus_third_case_and_exactness_witness :
    runSmokeCases specTranslation = .ok () :=
  (smoke_corpus_third_case_and_exactness.2.2 specTranslation).mpr (by decide)

/-- Error taxonomy of ensure_bridge_binary in both tools: FileNotFoundError
carries only a message string; the RuntimeError raised for a failed build
carries the captured build stdout and stderr (the source concatenates them
into one message; the two fields are kept separate here). -/
inductive ResolveError where
  | fileNotFound (msg : String)
  | buildFailed (stdout stderr : String)
deriving Repr, DecidableEq

/-- Result of subprocess.run(["make", "build-bridge"], capture_output=True):
return code plus captured stdout and stderr. -/
structure BuildResult where
  returncode : ℤ
  stdout : String
  stderr : String
deriving Repr, DecidableEq

/-- ensure_bridge_binary from tools/bridge_latency_bench.py lines 28-43 and,
textually identically, tools/bridge_smoke_test.py lines 41-56. pathExists is
the path.exists() observation taken before any build, build the result of the
synchronous build subprocess (only consulted when it runs), and
pathExistsAfterBuild the path.exists() observation taken after the build. -/
def ensure_bridge_binary (path : String) (pathExists build_if_missing : Bool)
    (build : BuildResult) (pathExistsAfterBuild : Bool) : Except ResolveError String :=
  if pathExists then .ok path
  else if !build_if_missing then
    .error (.fileNotFound ("bridge binary not found: " ++ path))
  else if build.returncode ≠ 0 then
    .error (.buildFailed build.stdout build.stderr)
  else if !pathExistsAfterBuild then
    .error (.fileNotFound ("bridge binary not found after build: " ++ path))
  else .ok path

/-- True exactly when a resolution result is a build failure carrying the
captured build output. -/
def carriesBuildOutput : Except ResolveError String → Bool
  | .error (.buildFailed _ _) => true
  | _ => false

/-- Counterexample for C7: when the binary is absent, building is allowed,
the build reports completion 0, and the binary is still absent afterwards,
resolution fails — but with a FileNotFoundError that does not carry the
captured build output, contrary to the claim that every post-build failure
carries it. -/
theorem ensure_bridge_binary_absent_after_build_counterexample :
    (ensure_bridge_binary "bin" false true ⟨0, "out", "err"⟩ false).isOk = false
    ∧ carriesBuildOutput (ensure_bridge_binary "bin" false true ⟨0, "out", "err"⟩ false) = false := by
  decide

/-- C7 (amended): if the path exists it is returned unchanged; if it is
missing and building is disallowed, resolution fails with a not-found error;
if building is allowed, resolution fails with the captured build output
exactly when the build reports non-zero completion, fails with a (plain)
not-found error when the build completes with zero but the binary is still
absent, and otherwise returns the path. -/
theorem ensure_bridge_binary_cases (path : String) (pathExists allow : Bool)
    (build : BuildResult) (after : Bool) :
    (pathExists = true →
      ensure_bridge_binary path pathExists allow build after = .ok path)
    ∧ (pathExists = false → allow = false →
      ensure_bridge_binary path pathExists allow build after
        = .error (.fileNotFound ("bridge binary not found: " ++ path)))
    ∧ (pathExists = false → allow = true → build.returncode ≠ 0 →
      ensure_bridge_binary path pathExists allow build after
        = .error (.buildFailed build.stdout build.stderr))
    ∧ (pathExists = false → allow = true → build.returncode = 0 → after = false →
      ensure_bridge_binary path pathExists allow build after
        = .error (.fileNotFound ("bridge binary not found after build: " ++ path)))
    ∧ (pathExists = false → allow = true → build.returncode = 0 → after = true →
      ensure_bridge_binary path pathExists allow build after = .ok path) := by
  refine ⟨?_, ?_, ?_, ?_, ?_⟩ <;> intro h1 <;>
    simp_all [ensure_bridge_binary] <;> intro h2 <;> simp_all

/-- Witness for C7 exercising each branch of the characterization at
concrete inputs. -/
theorem ensure_bridge_binary_cases_witness :
    ensure_bridge_binary "p" true false ⟨0, "o", "e"⟩ false = .ok "p"
    ∧ ensure_bridge_binary "p" false false ⟨0, "o", "e"⟩ false
        = .error (.fileNotFound ("bridge binary not found: " ++ "p"))
    ∧ ensure_bridge_binary "p" false true ⟨2, "o", "e"⟩ false
        = .error (.buildFailed "o" "e")
    ∧ ensure_bridge_binary "p" false true ⟨0, "o", "e"⟩ false
        = .error (.fileNotFound ("bridge binary not found after build: " ++ "p"))
    ∧ ensure_bridge_binary "p" false true ⟨0, "o", "e"⟩ true = .ok "p" :=
  ⟨(ensure_bridge_binary_cases "p" true false ⟨0, "o", "e"⟩ false).1 rfl,
   (ensure_bridge_binary_cases "p" false false ⟨0, "o", "e"⟩ false).2.1 rfl rfl,
   (ensure_bridge_binary_cases "p" false true ⟨2, "o", "e"⟩ false).2.2.1 rfl rfl (by decide),
   (ensure_bridge_binary_cases "p" false true ⟨0, "o", "e"⟩ false).2.2.2.1 rfl rfl rfl rfl,
   (ensure_bridge_binary_cases "p" false true ⟨0, "o", "e"⟩ true).2.2.2.2 rfl rfl rfl rfl⟩

/-- Ways a smoke-test run can end, from tools/bridge_smoke_test.py. -/
inductive SmokeOutcome where
  | binaryMissing
  | buildFailure
  | readinessTimeout
  | caseMismatch (index : ℕ)
  | success
deriving Repr, DecidableEq

/-- Exit status of the smoke tool (tools/bridge_smoke_test.py). main returns
0 on success (line 137), 2 when the receiver socket never appears (line 116)
and 3 on the first mismatching case (line 132); the provisioning errors
raised by ensure_bridge_binary (FileNotFoundError / RuntimeError) propagate
out of main, and an uncaught exception terminates the CPython interpreter
with status 1. -/
def smoke_exit_code : SmokeOutcome → ℕ
  | .binaryMissing => 1
  | .buildFailure => 1
  | .readinessTimeout => 2
  | .caseMismatch _ => 3
  | .success => 0

/-- Ways a benchmark run can end, from tools/bridge_latency_bench.py. -/
inductive BenchOutcome where
  | binaryMissing
  | buildFailure
  | readinessTimeout
  | echoMismatch (index : ℕ)
  | bridgeMismatch (index : ℕ)
  | receiveTimeout (index : ℕ)
  | success
deriving Repr, DecidableEq

/-- Exit status of the benchmark tool (tools/bridge_latency_bench.py). main
returns only on success (0, line 212); every failure — provisioning errors
from ensure_bridge_binary, the readiness RuntimeError (line 177), the echo
and bridge mismatch RuntimeErrors (lines 99 and 127), and a socket.timeout
from recvfrom — propagates as an uncaught exception, terminating the CPython
interpreter with status 1. -/
def bench_exit_code : BenchOutcome → ℕ
  | .success => 0
  | _ => 1

/-- Counterexample for C8: in the benchmark tool an infrastructure failure
(readiness timeout) and a behavioral failure (echo mismatch) exit with the
same code 1, so the two categories are not distinguished there. -/
theorem bench_exit_codes_not_distinct :
    bench_exit_code .readinessTimeout = 1
    ∧ bench_exit_code (.echoMismatch 3) = 1
    ∧ bench_exit_code .readinessTimeout = bench_exit_code (.echoMismatch 3) := by
  decide

/-- C8 (amended): both tools exit 0 exactly on success; in the smoke tool
every infrastructure failure (binary missing, build failed, readiness
timeout) exits nonzero with a code distinct from the behavioral mismatch
code, and in particular the first mismatching case exits with a code
different from the readiness-timeout code; in the benchmark tool, however,
every failure of either category exits with the same code 1. -/
theorem exit_code_discrimination (i j k : ℕ) :
    smoke_exit_code .success = 0
    ∧ bench_exit_code .success = 0
    ∧ smoke_exit_code .binaryMissing ≠ 0
    ∧ smoke_exit_code .buildFailure ≠ 0
    ∧ smoke_exit_code .readinessTimeout ≠ 0
    ∧ smoke_exit_code (.caseMismatch i) ≠ 0
    ∧ smoke_exit_code (.caseMismatch i) ≠ smoke_exit_code .binaryMissing
    ∧ smoke_exit_code (.caseMismatch i) ≠ smoke_exit_code .buildFailure
    ∧ smoke_exit_code (.caseMismatch i) ≠ smoke_exit_code .readinessTimeout
    ∧ bench_exit_code .readinessTimeout = bench_exit_code (.echoMismatch j)
    ∧ bench_exit_code .binaryMissing = bench_exit_code (.bridgeMismatch k) := by
  simp [smoke_exit_code, bench_exit_code]

/-- Line payload of direct-path iteration i (tools/bridge_latency_bench.py
line 92). -/
def directLine (i : ℕ) : String := "RUN bench-direct-" ++ toString i ++ "\n"

/-- Expected translated line of bridged-path iteration i
(tools/bridge_latency_bench.py line 119). -/
def bridgeExpectedLine (i : ℕ) : String := "RUN bench-bridge-" ++ toString i ++ "\n"

/-- Structured payload of bridged-path iteration i
(tools/bridge_latency_bench.py line 120). -/
def bridgePayload (i : ℕ) : Payload := .runCmd 1 ("bench-bridge-" ++ toString i)

/-- Shared iteration loop of bench_direct_dgram (lines 80-104) and
bench_bridge_dgram (lines 107-132) of tools/bridge_latency_bench.py, over the
list of iteration indices. respond i is the datagram recvfrom returns on
iteration i (none models a raised socket timeout); t0 i and t1 i are the
perf_counter_ns readings taken immediately before the send and immediately
after the receive; expectedOf i is the byte string the received datagram must
equal. A received datagram different from the expected one raises (fatal
mismatch); an iteration with warmup ≤ i appends the duration (t1 - t0) / 1000
(nanoseconds converted to fractional microseconds) to the recorded samples. -/
def benchIter (respond : ℕ → Option String) (expectedOf : ℕ → String)
    (t0 t1 : ℕ → ℚ) (warmup : ℕ) : List ℕ → Except String (List ℚ)
  | [] => .ok []
  | i :: rest =>
    match respond i with
    | none => .error ("receive timeout at " ++ toString i)
    | some got =>
      if got ≠ expectedOf i then .error ("mismatch at " ++ toString i ++ ": " ++ got)
      else
        match benchIter respond expectedOf t0 t1 warmup rest with
        | .error e => .error e
        | .ok vs => .ok (if warmup ≤ i then (t1 i - t0 i) / 1000 :: vs else vs)

/-- bench_direct_dgram from tools/bridge_latency_bench.py lines 80-104:
total = iterations + warmup round trips of the direct line payloads. -/
def bench_direct_dgram (respond : ℕ → Option String) (t0 t1 : ℕ → ℚ)
    (iterations warmup : ℕ) : Except String (List ℚ) :=
  benchIter respond directLine t0 t1 warmup (List.range (iterations + warmup))

/-- bench_bridge_dgram from tools/bridge_latency_bench.py lines 107-132:
total = iterations + warmup round trips of the structured payloads, each
expected to come back as the translated line. -/
def bench_bridge_dgram (respond : ℕ → Option String) (t0 t1 : ℕ → ℚ)
    (iterations warmup : ℕ) : Except String (List ℚ) :=
  benchIter respond bridgeExpectedLine t0 t1 warmup (List.range (iterations + warmup))

theorem benchIter_ok_shape (respond : ℕ → Option String) (expectedOf : ℕ → String)
    (t0 t1 : ℕ → ℚ) (warmup : ℕ) (is : List ℕ) (vs : List ℚ)
    (h : benchIter respond expectedOf t0 t1 warmup is = .ok vs) :
    vs = (is.filter (fun i => warmup ≤ i)).map (fun i => (t1 i - t0 i) / 1000) := by
  induction is generalizing vs with
  | nil =>
    simp only [benchIter] at h
    cases h
    rfl
  | cons i rest ih =>
    simp only [benchIter] at h
    cases hr : respond i with
    | none => rw [hr] at h; cases h
    | some got =>
      rw [hr] at h
      by_cases hg : got = expectedOf i
      · simp only [hg, ne_eq, not_true_eq_false, if_neg, ite_false] at h
        cases hrec : benchIter respond expectedOf t0 t1 warmup rest with
        | error e => rw [hrec] at h; simp at h
        | ok ws =>
          rw [hrec] at h
          simp only [Except.ok.injEq] at h
          subst h
          rw [List.filter_cons]
          by_cases hw : warmup ≤ i
          · simp [hw, ih ws hrec]
          · simp [hw, ih ws hrec]
      · simp [hg] at h

theorem filter_range_warmup (iterations warmup : ℕ) :
    ((List.range (iterations + warmup)).filter (fun i => warmup ≤ i)).length
      = iterations := by
  rw [Nat.add_comm iterations warmup, List.range_add, List.filter_append]
  have h1 : (List.range warmup).filter (fun i => decide (warmup ≤ i)) = [] := by
    apply List.filter_eq_nil.mpr
    intro a ha
    simp only [List.mem_range] at ha
    simp
    omega
  have h2 : ((List.range iterations).map (fun x => warmup + x)).filter
      (fun i => decide (warmup ≤ i))
      = (List.range iterations).map (fun x => warmup + x) := by
    apply List.filter_eq_self.mpr
    intro a ha
    simp only [List.mem_map] at ha
    obtain ⟨x, hx, hax⟩ := ha
    simp
    omega
  rw [h1, h2]
  simp

/-- C5: whenever a driver run completes without a fatal error, the recorded
samples are exactly one duration (t1 i - t0 i) / 1000 for each iteration
index i ≥ warmup in order, and their number equals the configured iteration
count; warmup iterations are executed but contribute no sample. Both the
direct-path and the bridged-path driver are covered. -/
theorem bench_sample_count_eq_iterations
    (respondD respondB : ℕ → Option String) (t0 t1 u0 u1 : ℕ → ℚ)
    (iterations warmup : ℕ) (vs ws : List ℚ) :
    (bench_direct_dgram respondD t0 t1 iterations warmup = .ok vs →
      vs = ((List.range (iterations + warmup)).filter (fun i => warmup ≤ i)).map
            (fun i => (t1 i - t0 i) / 1000)
      ∧ vs.length = iterations)
    ∧ (bench_bridge_dgram respondB u0 u1 iterations warmup = .ok ws →
      ws = ((List.range (iterations + warmup)).filter (fun i => warmup ≤ i)).map
            (fun i => (u1 i - u0 i) / 1000)
      ∧ ws.length = iterations) := by
  constructor
  · intro h
    have hshape := benchIter_ok_shape respondD directLine t0 t1 warmup _ vs h
    refine ⟨hshape, ?_⟩
    rw [hshape, List.length_map, filter_range_warmup]
  · intro h
    have hshape := benchIter_ok_shape respondB bridgeExpectedLine u0 u1 warmup _ ws h
    refine ⟨hshape, ?_⟩
    rw [hshape, List.length_map, filter_range_warmup]

theorem benchIter_ok_of_match (respond : ℕ → Option String) (expectedOf : ℕ → String)
    (t0 t1 : ℕ → ℚ) (warmup : ℕ) (is : List ℕ)
    (h : ∀ i ∈ is, respond i = some (expectedOf i)) :
    benchIter respond expectedOf t0 t1 warmup is
      = .ok ((is.filter (fun i => warmup ≤ i)).map (fun i => (t1 i - t0 i) / 1000)) := by
  induction is with
  | nil => rfl
  | cons i rest ih =>
    have hi := h i (List.mem_cons_self i rest)
    have hrest : ∀ j ∈ rest, respond j = some (expectedOf j) :=
      fun j hj => h j (List.mem_cons_of_mem i hj)
    simp only [benchIter, hi, ne_eq, not_true_eq_false, if_false, ih hrest,
      List.filter_cons]
    by_cases hw : warmup ≤ i
    · simp [hw]
    · simp [hw]

/-- Witness for C5 with 2 iterations and 1 warmup iteration on an echoing
environment with zero-duration clocks. -/
theorem bench_sample_count_eq_iterations_witness :
    bench_direct_dgram (fun i => some (directLine i)) (fun _ => 0) (fun _ => 0) 2 1
        = .ok [0, 0]
    ∧ (([0, 0] : List ℚ)
        = ((List.range (2 + 1)).filter (fun i => 1 ≤ i)).map
            (fun i => ((fun _ => (0 : ℚ)) i - (fun _ => (0 : ℚ)) i) / 1000)
      ∧ ([0, 0] : List ℚ).length = 2)
    ∧ bench_bridge_dgram (fun i => some (bridgeExpectedLine i)) (fun _ => 0) (fun _ => 0) 2 1
        = .ok [0, 0] := by
  have hd : bench_direct_dgram (fun i => some (directLine i))
      (fun _ => 0) (fun _ => 0) 2 1 = .ok [0, 0] := by
    rw [bench_direct_dgram,
        benchIter_ok_of_match (fun i => some (directLine i)) directLine
          (fun _ => 0) (fun _ => 0) 1 (List.range (2 + 1)) (fun i _ => rfl)]
    norm_num [List.range_succ]
  have hb : bench_bridge_dgram (fun i => some (bridgeExpectedLine i))
      (fun _ => 0) (fun _ => 0) 2 1 = .ok [0, 0] := by
    rw [bench_bridge_dgram,
        benchIter_ok_of_match (fun i => some (bridgeExpectedLine i)) bridgeExpectedLine
          (fun _ => 0) (fun _ => 0) 1 (List.range (2 + 1)) (fun i _ => rfl)]
    norm_num [List.range_succ]
  exact ⟨hd,
    (bench_sample_count_eq_iterations (fun i => some (directLine i))
      (fun i => some (bridgeExpectedLine i)) (fun _ => 0) (fun _ => 0)
      (fun _ => 0) (fun _ => 0) 2 1 [0, 0] [0, 0]).1 hd,
    hb⟩

/-- p95 overhead ratio from tools/bridge_latency_bench.py main, lines
194-198: rows[0] summarizes the direct samples under name direct_dgram,
rows[1] the bridged samples under name bridge_via_user_command, and
ratio = (rows[1] p95 / rows[0] p95) if rows[0] p95 else 0.0, a Python float
being truthy exactly when it is nonzero. -/
def p95_overhead_ratio (direct bridged : List ℚ) : ℚ :=
  if (summarize "direct_dgram" direct).p95_us ≠ 0 then
    (summarize "bridge_via_user_command" bridged).p95_us
      / (summarize "direct_dgram" direct).p95_us
  else 0

/-- C6: the reported p95 overhead ratio equals bridged p95 divided by direct
p95 whenever the direct p95 is nonzero, and equals 0 when the direct p95 is
zero (the division is never taken with a zero divisor). -/
theorem p95_overhead_ratio_cases (direct bridged : List ℚ) :
    ((summarize "direct_dgram" direct).p95_us ≠ 0 →
      p95_overhead_ratio direct bridged
        = (summarize "bridge_via_user_command" bridged).p95_us
            / (summarize "direct_dgram" direct).p95_us)
    ∧ ((summarize "direct_dgram" direct).p95_us = 0 →
      p95_overhead_ratio direct bridged = 0) := by
  constructor
  · intro h
    simp [p95_overhead_ratio, h]
  · intro h
    simp [p95_overhead_ratio, h]

/-- Witness for C6: a nonzero direct p95 (singleton sample 2) and a zero
direct p95 (empty samples). -/
theorem p95_overhead_ratio_cases_witness :
    ((summarize "direct_dgram" [2]).p95_us ≠ 0
      ∧ p95_overhead_ratio [2] [6]
          = (summarize "bridge_via_user_command" [6]).p95_us
              / (summarize "direct_dgram" [2]).p95_us)
    ∧ ((summarize "direct_dgram" []).p95_us = 0
      ∧ p95_overhead_ratio [] [6] = 0) :=
  ⟨⟨by decide, (p95_overhead_ratio_cases [2] [6]).1 (by decide)⟩,
   ⟨by decide, (p95_overhead_ratio_cases [] [6]).2 (by decide)⟩⟩

/-- Resources held by a harness run once the subject process has been
spawned: the subject process itself, the bound listening socket, the
ephemeral working directory and the three socket paths inside it
(kar.sock, seqd.sock.dgram, seqd.sock). -/
structure HarnessResources where
  subjectRunning : Bool
  listenerOpen : Bool
  tmpDirExists : Bool
  receiverSockExists : Bool
  seqDgramSockExists : Bool
  seqStreamSockExists : Bool
deriving Repr, DecidableEq

/-- The state right after the subject has been spawned, with everything held. -/
def allResourcesHeld : HarnessResources := ⟨true, true, true, true, true, true⟩

/-- Teardown actions that the tools perform on the way out. -/
inductive TeardownStep where
  | closeListener
  | terminateSubject
  | reapWithinGrace
  | graceTimeoutExpired
  | killSubject
  | reapAfterKill
  | removeTempDir
deriving Repr, DecidableEq

/-- Effect of one teardown step on the held resources. terminateSubject only
requests termination; the process stops being alive at the bounded reap
(reapWithinGrace) or at the forced kill; removing the temporary directory
removes every socket path inside it (shutil.rmtree semantics of
tempfile.TemporaryDirectory). SIGKILL is modelled as always stopping the
process. -/
def applyStep : HarnessResources → TeardownStep → HarnessResources
  | r, .closeListener => { r with listenerOpen := false }
  | r, .terminateSubject => r
  | r, .reapWithinGrace => { r with subjectRunning := false }
  | r, .graceTimeoutExpired => r
  | r, .killSubject => { r with subjectRunning := false }
  | r, .reapAfterKill => r
  | r, .removeTempDir =>
    { r with tmpDirExists := false, receiverSockExists := false,
             seqDgramSockExists := false, seqStreamSockExists := false }

def runSteps (r : HarnessResources) (steps : List TeardownStep) : HarnessResources :=
  steps.foldl applyStep r

/-- Process-termination sequence shared by both tools
(tools/bridge_latency_bench.py lines 215-220, tools/bridge_smoke_test.py
lines 139-144): bridge.terminate(), then bridge.communicate(timeout=1.0);
when that raises subprocess.TimeoutExpired, bridge.kill() followed by a
final bridge.communicate(timeout=1.0). exitsWithinGrace says whether the
subject exits within the bounded communicate timeout. -/
def terminateSubjectSeq (exitsWithinGrace : Bool) : List TeardownStep :=
  if exitsWithinGrace then
    [.terminateSubject, .reapWithinGrace]
  else
    [.terminateSubject, .graceTimeoutExpired, .killSubject, .reapAfterKill]

/-- Teardown of tools/bridge_latency_bench.py main: the finally block
(lines 213-220) closes the listener and then terminates/reaps the subject,
and the exit of the TemporaryDirectory context (line 150) removes the
working directory with every socket path inside it. -/
def benchTeardownSteps (exitsWithinGrace : Bool) : List TeardownStep :=
  TeardownStep.closeListener :: terminateSubjectSeq exitsWithinGrace
    ++ [TeardownStep.removeTempDir]

/-- Teardown of tools/bridge_smoke_test.py main: the inner finally block
(lines 138-146) terminates/reaps the subject, the outer finally block
(line 148) closes the listener, and the exit of the TemporaryDirectory
context (line 86) removes the working directory with every socket path
inside it. -/
def smokeTeardownSteps (exitsWithinGrace : Bool) : List TeardownStep :=
  terminateSubjectSeq exitsWithinGrace
    ++ [TeardownStep.closeListener, TeardownStep.removeTempDir]

/-- Ways the body of a run (the code inside the try block, after the subject
was spawned) can exit: normal completion, readiness timeout, a verification
or echo mismatch, or any other raised exception. -/
inductive BodyOutcome where
  | success
  | readinessTimeout
  | mismatch (index : ℕ)
  | raisedException (msg : String)
deriving Repr, DecidableEq

/-- A benchmark run after the subject was spawned: Python's try/finally and
with statements run the teardown steps whatever the body produced, so the
embedding sequences them after the body outcome unconditionally. Returns the
body outcome, the resources still held afterwards, and the executed steps. -/
def benchRunAfterSpawn (body : BodyOutcome) (exitsWithinGrace : Bool) :
    BodyOutcome × HarnessResources × List TeardownStep :=
  (body, runSteps allResourcesHeld (benchTeardownSteps exitsWithinGrace),
   benchTeardownSteps exitsWithinGrace)

/-- A smoke-test run after the subject was spawned, with the smoke tool's
teardown order. -/
def smokeRunAfterSpawn (body : BodyOutcome) (exitsWithinGrace : Bool) :
    BodyOutcome × HarnessResources × List TeardownStep :=
  (body, runSteps allResourcesHeld (smokeTeardownSteps exitsWithinGrace),
   smokeTeardownSteps exitsWithinGrace)

/-- C9: on every exit path of either tool — any body outcome, whether the
subject exits within the grace period or not — the teardown runs: the
subject is asked to terminate, force-killed exactly when it did not exit
within the bounded grace period, the listening socket is closed, and the
temporary directory with all three socket paths is removed; afterwards no
resource remains held. -/
theorem teardown_releases_all_resources (body : BodyOutcome) (graceful : Bool) :
    (benchRunAfterSpawn body graceful).2.1 = ⟨false, false, false, false, false, false⟩
    ∧ (smokeRunAfterSpawn body graceful).2.1 = ⟨false, false, false, false, false, false⟩
    ∧ (benchRunAfterSpawn body graceful).2.2.contains .terminateSubject = true
    ∧ (smokeRunAfterSpawn body graceful).2.2.contains .terminateSubject = true
    ∧ (benchRunAfterSpawn body graceful).2.2.contains .killSubject = !graceful
    ∧ (smokeRunAfterSpawn body graceful).2.2.contains .killSubject = !graceful
    ∧ (benchRunAfterSpawn body graceful).2.2.contains .removeTempDir = true
    ∧ (smokeRunAfterSpawn body graceful).2.2.contains .removeTempDir = true := by
  cases graceful <;>
    simp [benchRunAfterSpawn, smokeRunAfterSpawn, benchTeardownSteps,
      smokeTeardownSteps, terminateSubjectSeq, runSteps, applyStep,
      allResourcesHeld, List.contains]

/-- wait_for_socket loop from tools/bridge_latency_bench.py lines 46-52 and,
textually identically, tools/bridge_smoke_test.py lines 59-65, instrumented
with the list of instants at which path.exists() was evaluated. The wall
clock is modelled by the stream of readings the loop condition takes
(time.time() on each pass); the stream is a list, consumed one reading per
loop-condition check, and a run that would consume more readings than
provided behaves like an expired deadline. -/
def wait_for_socket_go (pathExistsAt : ℚ → Bool) (deadline : ℚ) :
    List ℚ → Bool × List ℚ
  | [] => (false, [])
  | t :: later =>
    if t < deadline then
      if pathExistsAt t then (true, [t])
      else
        let r := wait_for_socket_go pathExistsAt deadline later
        (r.1, t :: r.2)
    else (false, [])

/-- wait_for_socket: the deadline is the first clock reading t0 plus the
timeout (line 47); the loop then polls existence until a reading at or past
the deadline. Returns the boolean result and the poll instants. -/
def wait_for_socket (pathExistsAt : ℚ → Bool) (t0 timeout_s : ℚ)
    (clockReadings : List ℚ) : Bool × List ℚ :=
  wait_for_socket_go pathExistsAt (t0 + timeout_s) clockReadings

/-- C10: with a timeout ≤ 0 and a clock that never runs backwards past the
deadline reading, the waiter returns false without ever checking the path's
existence — even if the path exists from the start; and in general every
existence check happens at an instant strictly before the deadline. -/
theorem wait_for_socket_nonpositive_timeout (pathExistsAt : ℚ → Bool)
    (t0 timeout_s : ℚ) (clockReadings : List ℚ) :
    (timeout_s ≤ 0 → (∀ t ∈ clockReadings, t0 ≤ t) →
      wait_for_socket pathExistsAt t0 timeout_s clockReadings = (false, []))
    ∧ ∀ t ∈ (wait_for_socket pathExistsAt t0 timeout_s clockReadings).2,
        t < t0 + timeout_s := by
  constructor
  · intro htime hclock
    cases clockReadings with
    | nil => rfl
    | cons t later =>
      have ht := hclock t (List.mem_cons_self t later)
      have : ¬t < t0 + timeout_s := by linarith
      simp [wait_for_socket, wait_for_socket_go, this]
  · unfold wait_for_socket
    induction clockReadings with
    | nil =>
      intro t ht
      simp [wait_for_socket_go] at ht
    | cons u later ih =>
      intro t ht
      simp only [wait_for_socket_go] at ht
      by_cases hu : u < t0 + timeout_s
      · rw [if_pos hu] at ht
        by_cases hex : pathExistsAt u
        · rw [if_pos hex] at ht
          simp only [List.mem_singleton] at ht
          subst ht
          exact hu
        · rw [if_neg hex] at ht
          simp only [List.mem_cons] at ht
          cases ht with
          | inl he => subst he; exact hu
          | inr hm => exact ih t hm
      · rw [if_neg hu] at ht
        simp at ht

/-- Witness for C10: a negative timeout with an already-existing path and a
monotone clock yields false with no existence checks; and the poll instant
of a concrete positive-timeout run is before its deadline. -/
theorem wait_for_socket_nonpositive_timeout_witness :
    ((-1 : ℚ) ≤ 0 ∧ (∀ t ∈ ([10, 11] : List ℚ), (10 : ℚ) ≤ t))
    ∧ wait_for_socket (fun _ => true) 10 (-1) [10, 11] = (false, [])
    ∧ ((1/2 : ℚ) < 0 + 1) :=
  ⟨⟨by norm_num, by norm_num⟩,
   (wait_for_socket_nonpositive_timeout (fun _ => true) 10 (-1) [10, 11]).1
     (by norm_num) (by norm_num),
   (wait_for_socket_nonpositive_timeout (fun _ => false) 0 1 [1/2]).2 (1/2)
     (by norm_num [wait_for_socket, wait_for_socket_go])⟩

/-- Witness for C4 at a concrete name. -/
theorem summarize_empty_all_zero_witness :
    summarize "direct_dgram" [] = ⟨"direct_dgram", 0, 0, 0, 0, 0, 0, 0, 0⟩ :=
  summarize_empty_all_zero "direct_dgram"

/-- Witness for C8 at concrete mismatch indices. -/
theorem exit_code_discrimination_witness :
    smoke_exit_code .success = 0
    ∧ bench_exit_code .success = 0
    ∧ smoke_exit_code .binaryMissing ≠ 0
    ∧ smoke_exit_code .buildFailure ≠ 0
    ∧ smoke_exit_code .readinessTimeout ≠ 0
    ∧ smoke_exit_code (.caseMismatch 3) ≠ 0
    ∧ smoke_exit_code (.caseMismatch 3) ≠ smoke_exit_code .binaryMissing
    ∧ smoke_exit_code (.caseMismatch 3) ≠ smoke_exit_code .buildFailure
    ∧ smoke_exit_code (.caseMismatch 3) ≠ smoke_exit_code .readinessTimeout
    ∧ bench_exit_code .readinessTimeout = bench_exit_code (.echoMismatch 4)
    ∧ bench_exit_code .binaryMissing = bench_exit_code (.bridgeMismatch 5) :=
  exit_code_discrimination 3 4 5

/-- Witness for C9 at a concrete body outcome on both grace-period branches. -/
theorem teardown_releases_all_resources_witness :
    ((benchRunAfterSpawn (.mismatch 2) true).2.1
        = ⟨false, false, false, false, false, false⟩
      ∧ (smokeRunAfterSpawn (.mismatch 2) true).2.1
        = ⟨false, false, false, false, false, false⟩
      ∧ (benchRunAfterSpawn (.mismatch 2) true).2.2.contains .terminateSubject = true
      ∧ (smokeRunAfterSpawn (.mismatch 2) true).2.2.contains .terminateSubject = true
      ∧ (benchRunAfterSpawn (.mismatch 2) true).2.2.contains .killSubject = !true
      ∧ (smokeRunAfterSpawn (.mismatch 2) true).2.2.contains .killSubject = !true
      ∧ (benchRunAfterSpawn (.mismatch 2) true).2.2.contains .removeTempDir = true
      ∧ (smokeRunAfterSpawn (.mismatch 2) true).2.2.contains .removeTempDir = true)
    ∧ ((benchRunAfterSpawn (.raisedException "boom") false).2.2.contains .killSubject
        = !false) :=
  ⟨teardown_releases_all_resources (.mismatch 2) true,
   (teardown_releases_all_resources (.raisedException "boom") false).2.2.2.2.1⟩
